import Mathlib

/-!
Verification of the envoy exporter core (envoy_exporter.py) against its
natural-language specification.

This file shallowly embeds the fetch-throttling cache, the device registry,
the device model (plain devices and relay/switch devices) and the two
ingestion routines of the source program as executable Lean definitions, and
proves or refutes the frozen claims about them.

Modelling conventions:
- Wall-clock times and durations are natural numbers (seconds).  Numeric JSON
  measurement values are integers, since the program only passes them through
  to the metric sink without arithmetic.
- Metric-sink side effects (prometheus gauge/info calls) are reified as an
  ordered list of `SinkWrite` events returned next to each result.
- Python exceptions are modelled by an `Option String` component carrying the
  exception description; `none` means normal return.  State mutated before an
  exception is raised is kept in the returned state, matching Python
  semantics.
- A Python dict record is modelled as a structure holding the fields the code
  reads; the dynamic `lineN-connected` keys of an inventory record are kept as
  an explicit key list `lineConnectedKeys` in dict iteration order (the regex
  `line(\d+)-connected` matching of the source selects exactly those keys).
  Dict keys are unique, and all payloads modelled use line numbers that are at
  least 1, as produced by the appliance; missing mandatory fields (KeyError)
  are outside the model.
-/

/-- Device type tags, from the source enum `DeviceData.DeviceType`. -/
inductive DeviceType where
  | INVERTER
  | AC_BATTERY
  | NSRB
deriving DecidableEq, Repr

/-- One element of the `lines` list of a production/consumption `eim` item. -/
structure LineInfo where
  wNow : Int
  rmsCurrent : Int
  rmsVoltage : Int
  apprntPwr : Int
  pwrFactor : Int
deriving DecidableEq, Repr

/-- A reified write into the external metric sink (a prometheus gauge `set`,
label-child creation, or `Info.info` call). -/
inductive SinkWrite where
  | metadataInfo (serial_num part_number : String) (installed_date image_loaded_date : Int)
  | health (serial_num flag : String) (value : Bool)
  | lineCount (serial_num : String) (value : Int)
  | lineConnected (serial_num : String) (line : Nat) (value : Bool)
  | lineLabelCreate (serial_num : String) (line : Nat) (direction kind : String)
  | lineMeasure (serial_num : String) (line : Nat) (direction kind : String) (value : Int)
  | invertersActive (value : Int)
  | invertersWattNow (value : Int)
  | invertersWattHourLifetime (value : Int)
  | invFailedCount (value : Nat)
  | prodFailedCount (value : Nat)
  | invRequestDuration (value : Nat)
  | prodRequestDuration (value : Nat)
  | dataRequestDuration (value : Nat)
deriving DecidableEq, Repr

/-- One per-device record of an inventory payload.  The fixed fields the code
reads are explicit; `lineConnectedKeys` lists, in dict iteration order, the
line number and boolean value of each `lineN-connected` key, and `line_count`
models the `line-count` key. -/
structure InventoryRecord where
  serial_num : String
  part_num : String
  installed : Int
  img_load_date : Int
  producing : Bool
  communicating : Bool
  provisioned : Bool
  operating : Bool
  line_count : Int := 0
  lineConnectedKeys : List (Nat × Bool) := []
deriving DecidableEq, Repr

/-- One grouped item of the inventory payload: an optional `type` tag and a
list of device records (absent tags are skipped by the code). -/
structure InventoryItem where
  type? : Option String := none
  devices : List InventoryRecord := []
deriving DecidableEq, Repr

/-- One grouped item of a production/consumption list.  `lines?` models the
optional `lines` key, looked up only for connected lines of an `eim` item. -/
structure ProductionItem where
  type? : Option String := none
  activeCount : Int := 0
  wNow : Int := 0
  whLifetime : Int := 0
  lines? : Option (List LineInfo) := none
deriving DecidableEq, Repr

/-- The production payload: `{production: [...], consumption: [...]}`. -/
structure ProductionPayload where
  production : List ProductionItem := []
  consumption : List ProductionItem := []
deriving DecidableEq, Repr

/-- The state of one device entity (`DeviceData`, including the
`RelayDevice` specialization, whose `line_connected` list is nonempty).
Health flags are not stored on the device by the source: they go straight to
the metric sink, so they appear as `SinkWrite`s only. -/
structure DeviceData where
  type : DeviceType
  serial_num : String
  part_num : String
  installed_date : Int
  image_loaded_date : Int
  line_connected : List Bool := []
deriving DecidableEq, Repr

/-- The global `devices` dict: serial number to device, in insertion order
(Python dicts preserve insertion order). -/
abbrev Registry := List (String × DeviceData)

/-- Dict membership test plus lookup: `devices[serial_num]` guarded by
`serial_num in devices`. -/
def Registry.findSerial (reg : Registry) (s : String) : Option DeviceData :=
  (reg.find? (fun p => p.1 == s)).map (fun p => p.2)

/-- In-place mutation of the device object stored under a serial: the key is
untouched, only the stored entity changes. -/
def Registry.updateSerial (reg : Registry) (s : String) (d : DeviceData) : Registry :=
  reg.map (fun p => if p.1 == s then (p.1, d) else p)

/-- `EnvoyRequest.find_device_by_type`: first device (in insertion order) with
the given type, else `None`. -/
def find_device_by_type (reg : Registry) (t : DeviceType) : Option DeviceData :=
  (reg.find? (fun p => p.2.type == t)).map (fun p => p.2)

/-- Python `list.insert(i, x)`: inserts before position `i`, clamping an index
beyond the end to an append.  (Python also accepts negative indices; all line
numbers in modelled payloads are at least 1, so index `line_number - 1` is
never negative.) -/
def pyInsert {α : Type} : Nat → α → List α → List α
  | _, a, [] => [a]
  | 0, a, x :: xs => a :: x :: xs
  | n + 1, a, x :: xs => x :: pyInsert n a xs

/-- Base `DeviceData.__init__`: copies the record fields and publishes the
metadata info record once. -/
def DeviceData.init (t : DeviceType) (rec : InventoryRecord) : DeviceData × List SinkWrite :=
  ({ type := t, serial_num := rec.serial_num, part_num := rec.part_num,
     installed_date := rec.installed, image_loaded_date := rec.img_load_date,
     line_connected := [] },
   [SinkWrite.metadataInfo rec.serial_num rec.part_num rec.installed rec.img_load_date])

/-- The per-direction, per-kind gauge label children created (without a set)
for every connected line during `RelayDevice.__init__`. -/
def relayLabelCreates (serial : String) (line : Nat) : List SinkWrite :=
  (["production", "consumption"].map (fun dir =>
    (["watt_now", "rms_current", "rms_voltage", "apparent_power", "power_factor"].map
      (fun k => SinkWrite.lineLabelCreate serial line dir k)))).flatten

/-- The `for item in new_inventory` loop of `RelayDevice.__init__`, restricted
to the keys matching `line(\d+)-connected`: builds `line_connected` with
`insert(line_number - 1, connected)` and emits the per-line writes.  The
accumulator is the `line_connected` list built so far. -/
def relayLineLoop (serial : String) : List (Nat × Bool) → List Bool → List Bool × List SinkWrite
  | [], acc => (acc, [])
  | p :: rest, acc =>
      let acc1 := pyInsert (p.1 - 1) p.2 acc
      let ws1 := SinkWrite.lineConnected serial p.1 p.2 ::
        (if p.2 then relayLabelCreates serial p.1 else [])
      let r := relayLineLoop serial rest acc1
      (r.1, ws1 ++ r.2)

/-- `RelayDevice.__init__`: base init, `line-count` gauge, the line loop, and
the final sequencing check `len(self.line_connected) != relay_lines`, which
raises `RuntimeError` when it fails (`relay_lines` counts the matched keys).
On a raise the writes already performed are kept and the constructed object is
discarded by the caller. -/
def RelayDevice.init (t : DeviceType) (rec : InventoryRecord) :
    DeviceData × List SinkWrite × Option String :=
  let base := DeviceData.init t rec
  let loop := relayLineLoop rec.serial_num rec.lineConnectedKeys []
  let relay_lines := rec.lineConnectedKeys.length
  let ws := base.2 ++ [SinkWrite.lineCount rec.serial_num rec.line_count] ++ loop.2
  if loop.1.length ≠ relay_lines then
    ({ base.1 with line_connected := loop.1 }, ws,
     some "RuntimeError: relay lines are not sequential?")
  else
    ({ base.1 with line_connected := loop.1 }, ws, none)

/-- The constructor dispatch of `find_device_by_serial`: `RelayDevice` for
`NSRB`, plain `DeviceData` otherwise. -/
def deviceInit (t : DeviceType) (rec : InventoryRecord) :
    DeviceData × List SinkWrite × Option String :=
  if t = DeviceType.NSRB then RelayDevice.init t rec
  else
    let base := DeviceData.init t rec
    (base.1, base.2, none)

/-- `EnvoyRequest.find_device_by_serial`: return the registered device when
the serial is present; otherwise, when an inventory record is given, construct
the device of the matching variant and register it under the serial.  Returns
(found/created device, registry, sink writes, propagated exception). -/
def find_device_by_serial (reg : Registry) (serial_num : String) (device_type : DeviceType)
    (inventory : Option InventoryRecord) :
    Option DeviceData × Registry × List SinkWrite × Option String :=
  match Registry.findSerial reg serial_num with
  | some d => (some d, reg, [], none)
  | none =>
    match inventory with
    | none => (none, reg, [], none)
    | some inv =>
      let ini := deviceInit device_type inv
      match ini.2.2 with
      | some e => (none, reg, ini.2.1, some e)
      | none => (some ini.1, reg ++ [(serial_num, ini.1)], ini.2.1, none)

/-- `DeviceData.update_inventory_data`: republish the metadata info record
only when the incoming image-load timestamp differs from the stored one, then
overwrite the four health-flag gauges unconditionally. -/
def update_inventory_data (d : DeviceData) (rec : InventoryRecord) :
    DeviceData × List SinkWrite :=
  let step1 :=
    if d.image_loaded_date ≠ rec.img_load_date then
      ({ d with image_loaded_date := rec.img_load_date },
       [SinkWrite.metadataInfo d.serial_num d.part_num d.installed_date rec.img_load_date])
    else (d, [])
  (step1.1,
   step1.2 ++
     [SinkWrite.health d.serial_num "producing" rec.producing,
      SinkWrite.health d.serial_num "communicating" rec.communicating,
      SinkWrite.health d.serial_num "provisioned" rec.provisioned,
      SinkWrite.health d.serial_num "operating" rec.operating])

/-- One `device_inventory` iteration of `InventoryRequest.convert_data`:
`find_device_by_serial` followed by `device.update_inventory_data`.  A device
that is found is mutated in place in the registry; a freshly created device is
registered first and then updated in place.  If `find_device_by_serial`
returned `None` (impossible here, since an inventory record is always passed)
the attribute access on `None` would raise. -/
def processDeviceRecord (reg : Registry) (t : DeviceType) (rec : InventoryRecord) :
    Registry × List SinkWrite × Option String :=
  let f := find_device_by_serial reg rec.serial_num t (some rec)
  match f.2.2.2 with
  | some e => (f.2.1, f.2.2.1, some e)
  | none =>
    match f.1 with
    | some d =>
      let du := update_inventory_data d rec
      (Registry.updateSerial f.2.1 rec.serial_num du.1, f.2.2.1 ++ du.2, none)
    | none =>
      (f.2.1, f.2.2.1,
       some "AttributeError: NoneType object has no attribute update_inventory_data")

/-- The `for device_inventory in item[devices]` loop for one device type; an
exception from a record aborts the remaining records of the loop. -/
def processRecords (t : DeviceType) : Registry → List InventoryRecord →
    Registry × List SinkWrite × Option String
  | reg, [] => (reg, [], none)
  | reg, rec :: rest =>
    let r1 := processDeviceRecord reg t rec
    match r1.2.2 with
    | some e => (r1.1, r1.2.1, some e)
    | none =>
      let r2 := processRecords t r1.1 rest
      (r2.1, r1.2.1 ++ r2.2.1, r2.2.2)

/-- One item of `InventoryRequest.convert_data`: skip when the `type` key is
absent, otherwise run the three sequential type checks of the source (`PCU`,
`ACB`, `NSRB`; an unrecognized tag matches none of them and is skipped). -/
def convertInventoryItem (reg : Registry) (item : InventoryItem) :
    Registry × List SinkWrite × Option String :=
  match item.type? with
  | none => (reg, [], none)
  | some t =>
    let r1 := if t = "PCU" then processRecords DeviceType.INVERTER reg item.devices
              else (reg, [], none)
    match r1.2.2 with
    | some e => (r1.1, r1.2.1, some e)
    | none =>
      let r2 := if t = "ACB" then processRecords DeviceType.AC_BATTERY r1.1 item.devices
                else (r1.1, [], none)
      match r2.2.2 with
      | some e => (r2.1, r1.2.1 ++ r2.2.1, some e)
      | none =>
        let r3 := if t = "NSRB" then processRecords DeviceType.NSRB r2.1 item.devices
                  else (r2.1, [], none)
        (r3.1, r1.2.1 ++ r2.2.1 ++ r3.2.1, r3.2.2)

/-- The `for item in self.last_json` loop of `InventoryRequest.convert_data`. -/
def convertInventoryItems : Registry → List InventoryItem →
    Registry × List SinkWrite × Option String
  | reg, [] => (reg, [], none)
  | reg, item :: rest =>
    let r1 := convertInventoryItem reg item
    match r1.2.2 with
    | some e => (r1.1, r1.2.1, some e)
    | none =>
      let r2 := convertInventoryItems r1.1 rest
      (r2.1, r1.2.1 ++ r2.2.1, r2.2.2)

/-- `InventoryRequest.convert_data`: publish the inventory request duration,
then process the items. -/
def convertInventory (reg : Registry) (dur : Nat) (payload : List InventoryItem) :
    Registry × List SinkWrite × Option String :=
  let r := convertInventoryItems reg payload
  (r.1, SinkWrite.invRequestDuration dur :: r.2.1, r.2.2)

/-- The five measurement-gauge sets performed for one connected line in
`RelayDevice.update_production_data`, in source order. -/
def lineWrites (serial : String) (line : Nat) (direction : String) (li : LineInfo) :
    List SinkWrite :=
  [SinkWrite.lineMeasure serial line direction "watt_now" li.wNow,
   SinkWrite.lineMeasure serial line direction "rms_current" li.rmsCurrent,
   SinkWrite.lineMeasure serial line direction "rms_voltage" li.rmsVoltage,
   SinkWrite.lineMeasure serial line direction "apparent_power" li.apprntPwr,
   SinkWrite.lineMeasure serial line direction "power_factor" li.pwrFactor]

/-- The indexed loop of `RelayDevice.update_production_data` over
`self.line_connected`, starting at index `i`.  For a connected line it looks
up `new_production[lines][line_index]`: a missing `lines` key raises KeyError
and an out-of-range index raises IndexError; writes of earlier iterations are
kept. -/
def updateLines (serial direction : String) (lines? : Option (List LineInfo)) :
    List Bool → Nat → List SinkWrite × Option String
  | [], _ => ([], none)
  | c :: rest, i =>
    if c then
      match lines? with
      | none => ([], some "KeyError: lines")
      | some ls =>
        match ls.get? i with
        | none => ([], some "IndexError: list index out of range")
        | some li =>
          let r := updateLines serial direction lines? rest (i + 1)
          (lineWrites serial (i + 1) direction li ++ r.1, r.2)
    else updateLines serial direction lines? rest (i + 1)

/-- `RelayDevice.update_production_data` (the base-class override is a
no-op). -/
def update_production_data (d : DeviceData) (direction : String) (item : ProductionItem) :
    List SinkWrite × Option String :=
  updateLines d.serial_num direction item.lines? d.line_connected 0

/-- Reference description of the successful writes of
`update_production_data`: for each connected index one bundle of the five
line measurements, nothing for disconnected indices. -/
def connectedLineWrites (serial direction : String) (ls : List LineInfo) :
    List Bool → Nat → List SinkWrite
  | [], _ => []
  | c :: rest, i =>
    (if c then lineWrites serial (i + 1) direction (ls.getD i ⟨0, 0, 0, 0, 0⟩) else []) ++
      connectedLineWrites serial direction ls rest (i + 1)

/-- One item of one direction list in `ProductionRequest.convert_data`:
`inverters` items set the three aggregate gauges; `eim` items look up the
relay device by type and call `update_production_data` on the result — when no
such device exists the lookup yields `None` and the attribute access raises. -/
def convertProductionItem (reg : Registry) (direction : String) (item : ProductionItem) :
    List SinkWrite × Option String :=
  match item.type? with
  | none => ([], none)
  | some t =>
    if t = "inverters" then
      ([SinkWrite.invertersActive item.activeCount,
        SinkWrite.invertersWattNow item.wNow,
        SinkWrite.invertersWattHourLifetime item.whLifetime], none)
    else if t = "eim" then
      match find_device_by_type reg DeviceType.NSRB with
      | none =>
        ([], some "AttributeError: NoneType object has no attribute update_production_data")
      | some d => update_production_data d direction item
    else ([], none)

/-- The `for item in self.last_json[direction]` loop of
`ProductionRequest.convert_data`. -/
def convertProductionDir (reg : Registry) (direction : String) :
    List ProductionItem → List SinkWrite × Option String
  | [] => ([], none)
  | item :: rest =>
    let r1 := convertProductionItem reg direction item
    match r1.2 with
    | some e => (r1.1, some e)
    | none =>
      let r2 := convertProductionDir reg direction rest
      (r1.1 ++ r2.1, r2.2)

/-- `ProductionRequest.convert_data`: publish the production request duration,
then process the production list followed by the consumption list.  The
registry is never modified by production ingestion. -/
def convertProduction (reg : Registry) (dur : Nat) (p : ProductionPayload) :
    Registry × List SinkWrite × Option String :=
  let r1 := convertProductionDir reg "production" p.production
  match r1.2 with
  | some e => (reg, SinkWrite.prodRequestDuration dur :: r1.1, some e)
  | none =>
    let r2 := convertProductionDir reg "consumption" p.consumption
    (reg, SinkWrite.prodRequestDuration dur :: (r1.1 ++ r2.1), r2.2)

/-- Per-resource snapshot state of an `EnvoyRequest` instance. -/
structure Snapshot (α : Type) where
  last_text : Option String := none
  last_json : Option α := none
  last_update_time : Nat := 0
  last_update_duration : Nat := 0
  failed_request_count : Nat := 0
deriving DecidableEq, Repr

/-- Outcome of the HTTP request plus JSON decode of one fetch, as observed by
`EnvoyRequest.update`: a requests-level exception, a non-OK status code, a
body that fails JSON decoding, or a decoded payload with end time and
duration. -/
inductive FetchResult (α : Type) where
  | network (msg : String)
  | http (status : Nat) (text : String)
  | decodeError (text : String)
  | success (text : String) (json : α) (endTime : Nat) (dur : Nat)
deriving DecidableEq, Repr

/-- `EnvoyRequest.update`, given the fetch outcome:
- requests exception: increment the failure counter, publish it, return;
- otherwise the counter is reset to zero and published (this happens before
  the status check);
- non-OK status: log and return with the snapshot otherwise untouched;
- OK status: store `last_text`, then decode — a decode failure raises after
  `last_text` was already overwritten — then store the remaining snapshot
  fields and run the data-specific converter. -/
def updateResource {α : Type} (reg : Registry) (snap : Snapshot α) (res : FetchResult α)
    (failedW : Nat → SinkWrite)
    (convert : Registry → Nat → α → Registry × List SinkWrite × Option String) :
    Registry × Snapshot α × List SinkWrite × Option String :=
  match res with
  | FetchResult.network _msg =>
      (reg, { snap with failed_request_count := snap.failed_request_count + 1 },
       [failedW (snap.failed_request_count + 1)], none)
  | FetchResult.http _status _text =>
      (reg, { snap with failed_request_count := 0 }, [failedW 0], none)
  | FetchResult.decodeError text =>
      (reg, { snap with failed_request_count := 0, last_text := some text },
       [failedW 0], some "json.decoder.JSONDecodeError")
  | FetchResult.success text j endTime dur =>
      let snap' : Snapshot α :=
        { last_text := some text, last_json := some j,
          last_update_time := endTime, last_update_duration := dur,
          failed_request_count := 0 }
      let c := convert reg dur j
      (c.1, snap', failedW 0 :: c.2.1, c.2.2)

/-- The process-wide mutable state read and written by `request_envoy_data`. -/
structure EnvoyState where
  last_envoy_update_time : Nat := 0
  registry : Registry := []
  invSnap : Snapshot (List InventoryItem) := {}
  prodSnap : Snapshot ProductionPayload := {}
deriving DecidableEq, Repr

/-- The throttle decision inlined in `request_envoy_data`: the fetch proceeds
unless `last_envoy_update_time + envoy_minimum_interval_seconds > now`. -/
def should_fetch (interval last now : Nat) : Bool :=
  decide (last + interval ≤ now)

/-- `request_envoy_data`: return immediately when the throttle is closed;
otherwise advance `last_envoy_update_time` to the current time before any
fetch, update inventory then production (an exception from either propagates,
skipping the rest), and finally publish the aggregate duration.  The result is
(new state, sink writes, propagated exception, whether a fetch was
performed). -/
def request_envoy_data (interval : Nat) (st : EnvoyState) (now : Nat)
    (invRes : FetchResult (List InventoryItem)) (prodRes : FetchResult ProductionPayload)
    (endNow : Nat) : EnvoyState × List SinkWrite × Option String × Bool :=
  if should_fetch interval st.last_envoy_update_time now = false then
    (st, [], none, false)
  else
    let u1 := updateResource st.registry st.invSnap invRes SinkWrite.invFailedCount
      convertInventory
    match u1.2.2.2 with
    | some e =>
        ({ st with last_envoy_update_time := now, registry := u1.1, invSnap := u1.2.1 },
         u1.2.2.1, some e, true)
    | none =>
        let u2 := updateResource u1.1 st.prodSnap prodRes SinkWrite.prodFailedCount
          convertProduction
        match u2.2.2.2 with
        | some e =>
            ({ st with
                last_envoy_update_time := now
                registry := u2.1
                invSnap := u1.2.1
                prodSnap := u2.2.1 },
             u1.2.2.1 ++ u2.2.2.1, some e, true)
        | none =>
            ({ st with
                last_envoy_update_time := now
                registry := u2.1
                invSnap := u1.2.1
                prodSnap := u2.2.1 },
             u1.2.2.1 ++ u2.2.2.1 ++ [SinkWrite.dataRequestDuration (endNow - now)],
             none, true)

/-- Program counter of one thread executing the unsynchronized
check-then-record sequence of `request_envoy_data`: before the throttle
check, past a positive check but before recording/fetching, or finished. -/
inductive RacePC where
  | beforeCheck
  | willFetch
  | finished
deriving DecidableEq, Repr

/-- One server thread triggering `request_envoy_data`: the wall-clock time it
observes, its program counter, and whether it performed the fetch. -/
structure RaceThread where
  now : Nat
  pc : RacePC := RacePC.beforeCheck
  fetched : Bool := false
deriving DecidableEq, Repr

/-- Shared throttle state plus two concurrent threads. -/
structure RaceState where
  interval : Nat
  last : Nat
  t1 : RaceThread
  t2 : RaceThread
deriving DecidableEq, Repr

/-- One atomic step of one thread.  The source contains no lock, so the
throttle check (a read of `last_envoy_update_time`) and the later assignment
`last_envoy_update_time = time.time()` are separate steps between which the
other thread may run. -/
def raceThreadStep (interval last : Nat) (t : RaceThread) : Nat × RaceThread :=
  match t.pc with
  | RacePC.beforeCheck =>
      if should_fetch interval last t.now then (last, { t with pc := RacePC.willFetch })
      else (last, { t with pc := RacePC.finished })
  | RacePC.willFetch => (t.now, { t with pc := RacePC.finished, fetched := true })
  | RacePC.finished => (last, t)

/-- Run one step of the scheduled thread (`true` picks thread 1). -/
def raceStep (s : RaceState) (pick : Bool) : RaceState :=
  if pick then
    let r := raceThreadStep s.interval s.last s.t1
    { s with last := r.1, t1 := r.2 }
  else
    let r := raceThreadStep s.interval s.last s.t2
    { s with last := r.1, t2 := r.2 }

/-- Run a whole interleaving schedule. -/
def raceRun (s : RaceState) (sched : List Bool) : RaceState :=
  sched.foldl raceStep s

/-- Two invocations racing after the interval has elapsed: both threads
observe time 100 with `last = 0` and `interval = 10`, and the schedule lets
both pass the throttle check before either records its attempt. -/
def c5Race : RaceState :=
  { interval := 10, last := 0, t1 := { now := 100 }, t2 := { now := 100 } }

/-- Serialized invocations of the check-then-record pair, one complete
invocation per listed trigger time; returns the final timestamp and how many
invocations fetched. -/
def throttleSeq (interval : Nat) : Nat → List Nat → Nat × Nat
  | last, [] => (last, 0)
  | last, now :: rest =>
    if should_fetch interval last now then
      let r := throttleSeq interval now rest
      (r.1, r.2 + 1)
    else
      let r := throttleSeq interval last rest
      (r.1, r.2)

/-- Snapshot with three recorded consecutive failures, used to evaluate the
failure paths of `EnvoyRequest.update`. -/
def c2Snap : Snapshot (List InventoryItem) :=
  { last_text := some "previous body", last_json := some [],
    last_update_time := 7, last_update_duration := 1, failed_request_count := 3 }

/-- A production `eim` item (with a well-formed `lines` list). -/
def c3Item : ProductionItem :=
  { type? := some "eim", lines? := some [] }

/-- A production payload whose production list holds one `eim` item. -/
def c3Payload : ProductionPayload :=
  { production := [c3Item], consumption := [] }

/-- Inventory record of an NSRB device with connected-line keys `line1` and
`line3` but no `line2` key: the gapped layout of the specification example. -/
def gapRecord : InventoryRecord :=
  { serial_num := "121707000002", part_num := "800-00555-r03",
    installed := 1600000000, img_load_date := 1600000001,
    producing := true, communicating := true, provisioned := true, operating := true,
    line_count := 2, lineConnectedKeys := [(1, true), (3, true)] }

/-- Inventory record of an NSRB device with contiguous connected-line keys
`line1`, `line2`, `line3`. -/
def contiguousRecord : InventoryRecord :=
  { serial_num := "121707000003", part_num := "800-00555-r03",
    installed := 1600000000, img_load_date := 1600000001,
    producing := true, communicating := true, provisioned := true, operating := true,
    line_count := 3, lineConnectedKeys := [(1, true), (2, true), (3, true)] }

/-- Inventory record of a plain inverter device. -/
def pcuRecord : InventoryRecord :=
  { serial_num := "482125000001", part_num := "800-00630-r02",
    installed := 1600000002, img_load_date := 1600000003,
    producing := true, communicating := true, provisioned := true, operating := true }

/-- Inventory payload placing the gapped NSRB record before a PCU record. -/
def c6Payload : List InventoryItem :=
  [{ type? := some "NSRB", devices := [gapRecord] },
   { type? := some "PCU", devices := [pcuRecord] }]

/-- Fresh process state: no previous attempt, empty registry, empty
snapshots. -/
def c6State : EnvoyState := {}

/-- Successful inventory fetch carrying the gapped payload. -/
def c6InvRes : FetchResult (List InventoryItem) :=
  FetchResult.success "inventory body" c6Payload 105 2

/-- Successful production fetch carrying an empty payload. -/
def c6ProdRes : FetchResult ProductionPayload :=
  FetchResult.success "production body" { production := [], consumption := [] } 108 3

/-- Relay device with lines 1 and 3 connected, line 2 disconnected. -/
def c10Device : DeviceData :=
  { type := DeviceType.NSRB, serial_num := "121707000002",
    part_num := "800-00555-r03", installed_date := 1600000000,
    image_loaded_date := 1600000001, line_connected := [true, false, true] }

/-- An `eim` item whose `lines` list covers all three lines. -/
def c10Item : ProductionItem :=
  { type? := some "eim",
    lines? := some [⟨230, 5, 230, 1150, 1⟩, ⟨0, 0, 230, 0, 0⟩, ⟨120, 2, 231, 462, 1⟩] }

/-- Python list insertion always adds exactly one element, even when the
index is beyond the end (it clamps to an append). -/
theorem pyInsert_length {α : Type} (i : Nat) (a : α) (l : List α) :
    (pyInsert i a l).length = l.length + 1 := by
  induction l generalizing i with
  | nil => cases i <;> rfl
  | cons x xs ih =>
    cases i with
    | zero => rfl
    | succ n => simp [pyInsert, ih]

/-- The relay line loop grows `line_connected` by exactly one element per
matched `lineN-connected` key. -/
theorem relayLineLoop_length (serial : String) (keys : List (Nat × Bool)) (acc : List Bool) :
    (relayLineLoop serial keys acc).1.length = acc.length + keys.length := by
  induction keys generalizing acc with
  | nil => simp [relayLineLoop]
  | cons p rest ih =>
    simp only [relayLineLoop]
    rw [ih]
    simp [pyInsert_length]
    omega

/-- The sequencing check of `RelayDevice.__init__` can never fail:
`len(line_connected)` always equals `relay_lines`. -/
theorem relayInit_err_none (t : DeviceType) (rec : InventoryRecord) :
    (RelayDevice.init t rec).2.2 = none := by
  unfold RelayDevice.init
  simp [relayLineLoop_length]

/-- Constructing a device of either variant never raises. -/
theorem deviceInit_err_none (t : DeviceType) (rec : InventoryRecord) :
    (deviceInit t rec).2.2 = none := by
  by_cases h : t = DeviceType.NSRB <;> simp [deviceInit, h, relayInit_err_none]

/-- `find_device_by_serial` with a registered serial returns the stored
device and leaves everything unchanged. -/
theorem find_device_by_serial_found (reg : Registry) (s : String) (t : DeviceType)
    (rec : InventoryRecord) (d : DeviceData) (h : Registry.findSerial reg s = some d) :
    find_device_by_serial reg s t (some rec) = (some d, reg, [], none) := by
  simp [find_device_by_serial, h]

/-- `find_device_by_serial` with an unregistered serial and an inventory
record constructs the device and appends it under the serial. -/
theorem find_device_by_serial_created (reg : Registry) (s : String) (t : DeviceType)
    (rec : InventoryRecord) (h : Registry.findSerial reg s = none) :
    find_device_by_serial reg s t (some rec) =
      (some (deviceInit t rec).1, reg ++ [(s, (deviceInit t rec).1)],
       (deviceInit t rec).2.1, none) := by
  simp [find_device_by_serial, h, deviceInit_err_none]

/-- Unfolding of one inventory-record step when the serial is registered. -/
theorem processDeviceRecord_found (reg : Registry) (t : DeviceType) (rec : InventoryRecord)
    (d : DeviceData) (h : Registry.findSerial reg rec.serial_num = some d) :
    processDeviceRecord reg t rec =
      (Registry.updateSerial reg rec.serial_num (update_inventory_data d rec).1,
       (update_inventory_data d rec).2, none) := by
  simp [processDeviceRecord, find_device_by_serial_found reg rec.serial_num t rec d h]

/-- Unfolding of one inventory-record step when the serial is new. -/
theorem processDeviceRecord_created (reg : Registry) (t : DeviceType) (rec : InventoryRecord)
    (h : Registry.findSerial reg rec.serial_num = none) :
    processDeviceRecord reg t rec =
      (Registry.updateSerial (reg ++ [(rec.serial_num, (deviceInit t rec).1)]) rec.serial_num
         (update_inventory_data (deviceInit t rec).1 rec).1,
       (deviceInit t rec).2.1 ++ (update_inventory_data (deviceInit t rec).1 rec).2, none) := by
  simp [processDeviceRecord, find_device_by_serial_created reg rec.serial_num t rec h]

/-- Processing one inventory record never raises. -/
theorem processDeviceRecord_err_none (reg : Registry) (t : DeviceType) (rec : InventoryRecord) :
    (processDeviceRecord reg t rec).2.2 = none := by
  cases h : Registry.findSerial reg rec.serial_num with
  | some d => rw [processDeviceRecord_found reg t rec d h]
  | none => rw [processDeviceRecord_created reg t rec h]

/-- In-place device mutation never changes the keys of the registry. -/
theorem updateSerial_map_fst (reg : Registry) (s : String) (d : DeviceData) :
    (Registry.updateSerial reg s d).map Prod.fst = reg.map Prod.fst := by
  unfold Registry.updateSerial
  induction reg with
  | nil => rfl
  | cons p rest ih =>
    simp only [List.map_cons, ih]
    congr 1
    by_cases h : p.1 == s <;> simp [h]

/-- `update_inventory_data` touches only the image-load timestamp of the
device entity; the result always carries the incoming timestamp. -/
theorem update_inventory_data_frame (d : DeviceData) (rec : InventoryRecord) :
    (update_inventory_data d rec).1.serial_num = d.serial_num
    ∧ (update_inventory_data d rec).1.type = d.type
    ∧ (update_inventory_data d rec).1.part_num = d.part_num
    ∧ (update_inventory_data d rec).1.installed_date = d.installed_date
    ∧ (update_inventory_data d rec).1.line_connected = d.line_connected
    ∧ (update_inventory_data d rec).1.image_loaded_date = rec.img_load_date := by
  by_cases h : d.image_loaded_date = rec.img_load_date <;>
    simp [update_inventory_data, h]

/-- The closed throttle admits no fetch on a run of identically timed
serialized invocations. -/
theorem throttleSeq_closed (interval now : Nat) (h1 : 1 ≤ interval) :
    ∀ ts : List Nat, (∀ x ∈ ts, x = now) → (throttleSeq interval now ts).2 = 0 := by
  intro ts
  induction ts with
  | nil => intro _; rfl
  | cons x rest ih =>
    intro hall
    have hx : x = now := hall x (List.mem_cons_self x rest)
    subst hx
    have hsf : should_fetch interval x x = false := by
      simp [should_fetch]; omega
    simp only [throttleSeq, hsf]
    simp only [Bool.false_eq_true, if_false]
    exact ih (fun y hy => hall y (List.mem_cons_of_mem x hy))

/-- When the throttle is closed, `request_envoy_data` returns immediately
without touching anything. -/
theorem request_envoy_data_no_fetch (interval : Nat) (st : EnvoyState) (now endNow : Nat)
    (invRes : FetchResult (List InventoryItem)) (prodRes : FetchResult ProductionPayload)
    (hf : should_fetch interval st.last_envoy_update_time now = false) :
    request_envoy_data interval st now invRes prodRes endNow = (st, [], none, false) := by
  unfold request_envoy_data
  rw [hf]
  simp

/-- When the throttle is open, a fetch is performed and the shared timestamp
is advanced to the current time before the fetches, whatever the outcome of
either fetch. -/
theorem request_envoy_data_fetch_path (interval : Nat) (st : EnvoyState) (now endNow : Nat)
    (invRes : FetchResult (List InventoryItem)) (prodRes : FetchResult ProductionPayload)
    (hf : should_fetch interval st.last_envoy_update_time now = true) :
    (request_envoy_data interval st now invRes prodRes endNow).2.2.2 = true
    ∧ (request_envoy_data interval st now invRes prodRes endNow).1.last_envoy_update_time
        = now := by
  unfold request_envoy_data
  rw [hf]
  simp only [Bool.true_eq_false, if_false]
  constructor
  · split
    · rfl
    · split <;> rfl
  · split
    · rfl
    · split <;> rfl

/-- Claim C1: for every call to `request_envoy_data`, a fetch of the two
resources is performed if and only if the current time is at least
`last_envoy_update_time + envoy_minimum_interval_seconds` (or no attempt has
ever been made, i.e. the timestamp still holds its initial value 0 — under
the wall-clock assumption `interval ≤ now` the two conditions coincide), and
whenever a fetch cycle begins the shared timestamp is advanced to the current
time, regardless of whether the fetches later succeed or fail. -/
theorem request_envoy_data_throttle (interval : Nat) (st : EnvoyState) (now endNow : Nat)
    (invRes : FetchResult (List InventoryItem)) (prodRes : FetchResult ProductionPayload)
    (h : interval ≤ now) :
    ((request_envoy_data interval st now invRes prodRes endNow).2.2.2 = true ↔
      (st.last_envoy_update_time + interval ≤ now ∨ st.last_envoy_update_time = 0))
    ∧ ((request_envoy_data interval st now invRes prodRes endNow).2.2.2 = true →
        (request_envoy_data interval st now invRes prodRes endNow).1.last_envoy_update_time
          = now) := by
  by_cases hf : should_fetch interval st.last_envoy_update_time now = true
  · obtain ⟨h1, h2⟩ := request_envoy_data_fetch_path interval st now endNow invRes prodRes hf
    have hle : st.last_envoy_update_time + interval ≤ now := by
      simpa [should_fetch] using hf
    exact ⟨⟨fun _ => Or.inl hle, fun _ => h1⟩, fun _ => h2⟩
  · have hf' : should_fetch interval st.last_envoy_update_time now = false := by
      simpa using hf
    have hgt : ¬ (st.last_envoy_update_time + interval ≤ now) := by
      simpa [should_fetch] using hf'
    rw [request_envoy_data_no_fetch interval st now endNow invRes prodRes hf']
    constructor
    · constructor
      · intro hcontra; exact absurd hcontra (by simp)
      · rintro (hle | h0)
        · exact absurd hle hgt
        · exact absurd (by omega : st.last_envoy_update_time + interval ≤ now) hgt
    · intro hcontra; exact absurd hcontra (by simp)

/-- Claim C1 witness: with a fresh state (no attempt ever made), interval 10
and current time 100, a fetch is performed. -/
theorem request_envoy_data_throttle_witness :
    (request_envoy_data 10 c6State 100 c6InvRes c6ProdRes 109).2.2.2 = true :=
  (request_envoy_data_throttle 10 c6State 100 109 c6InvRes c6ProdRes (by decide)).1.mpr
    (Or.inr rfl)

/-- Claim C2 (code bug): evaluating `EnvoyRequest.update` on the three failure
kinds, starting from a snapshot with 3 recorded consecutive failures.  A
network error does increment the counter to 4 and leaves the snapshot
otherwise unchanged, but a non-OK HTTP status resets the counter to 0 (the
reset precedes the status check in the source), and a malformed JSON body
resets the counter, overwrites `last_text` with the new body before the
decode, and lets the decode exception propagate — contradicting the claim
that all three failure kinds increment the counter and leave the snapshot
completely unchanged. -/
theorem update_failure_paths :
    (updateResource [] c2Snap (FetchResult.network "timeout") SinkWrite.invFailedCount
        convertInventory).2.1.failed_request_count = 4
    ∧ (updateResource [] c2Snap (FetchResult.network "timeout") SinkWrite.invFailedCount
        convertInventory).2.1.last_text = some "previous body"
    ∧ (updateResource [] c2Snap (FetchResult.http 500 "Internal Server Error")
        SinkWrite.invFailedCount convertInventory).2.1.failed_request_count = 0
    ∧ (updateResource [] c2Snap (FetchResult.http 500 "Internal Server Error")
        SinkWrite.invFailedCount convertInventory).2.1.last_text = some "previous body"
    ∧ (updateResource [] c2Snap (FetchResult.decodeError "<html>not json")
        SinkWrite.invFailedCount convertInventory).2.1.failed_request_count = 0
    ∧ (updateResource [] c2Snap (FetchResult.decodeError "<html>not json")
        SinkWrite.invFailedCount convertInventory).2.1.last_text = some "<html>not json"
    ∧ (updateResource [] c2Snap (FetchResult.decodeError "<html>not json")
        SinkWrite.invFailedCount convertInventory).2.2.2
        = some "json.decoder.JSONDecodeError" :=
  ⟨rfl, rfl, rfl, rfl, rfl, rfl, rfl⟩

/-- Claim C3 counterexample: ingesting a production payload holding an `eim`
item while no RelaySwitch (NSRB) device exists is not a silent no-op: the
`None` returned by `find_device_by_type` is dereferenced and an
AttributeError propagates (the registry is still left unchanged). -/
theorem production_no_relay_raises :
    (convertProduction [] 1 c3Payload).2.2 =
      some "AttributeError: NoneType object has no attribute update_production_data"
    ∧ (convertProduction [] 1 c3Payload).1 = [] :=
  ⟨rfl, rfl⟩

/-- Claim C3 (amended): for every production `eim` item ingested while no
NSRB device is registered, the item lookup yields `None` and the call on it
raises an AttributeError that propagates; no device is created and the
registry is never modified by production ingestion. -/
theorem production_no_relay_amended (reg : Registry) (direction : String)
    (item : ProductionItem)
    (hdev : find_device_by_type reg DeviceType.NSRB = none)
    (htype : item.type? = some "eim") :
    convertProductionItem reg direction item =
      ([], some "AttributeError: NoneType object has no attribute update_production_data")
    ∧ ∀ (dur : Nat) (p : ProductionPayload), (convertProduction reg dur p).1 = reg := by
  constructor
  · simp [convertProductionItem, htype, hdev]
  · intro dur p
    simp only [convertProduction]
    split <;> rfl

/-- Claim C3 witness: the amended behavior at the empty registry and a
concrete `eim` item. -/
theorem production_no_relay_amended_witness :
    convertProductionItem [] "production" c3Item =
      ([], some "AttributeError: NoneType object has no attribute update_production_data") :=
  (production_no_relay_amended [] "production" c3Item rfl rfl).1

/-- Claim C4 (code bug): a RelaySwitch construction from the contiguous
record `line1, line2, line3` succeeds with 3 lines as claimed, but the gapped
record `line1, line3` also succeeds (with a 2-element `line_connected` list)
instead of raising the construction error: Python list insertion clamps the
out-of-range index 2, so the final check `len(line_connected) != relay_lines`
compares 2 with 2 and the `RuntimeError` is unreachable. -/
theorem relay_init_gap_succeeds :
    (RelayDevice.init DeviceType.NSRB contiguousRecord).2.2 = none
    ∧ (RelayDevice.init DeviceType.NSRB contiguousRecord).1.line_connected
        = [true, true, true]
    ∧ (RelayDevice.init DeviceType.NSRB gapRecord).2.2 = none
    ∧ (RelayDevice.init DeviceType.NSRB gapRecord).1.line_connected = [true, true] :=
  ⟨rfl, rfl, rfl, rfl⟩

/-- Claim C5 counterexample: `request_envoy_data` takes no lock, so the
throttle check and the timestamp assignment are separate steps.  Under the
interleaving in which both threads pass the check before either records its
attempt, both invocations perform the fetch — not exactly one. -/
theorem race_two_fetches :
    (raceRun c5Race [true, false, true, false]).t1.fetched = true
    ∧ (raceRun c5Race [true, false, true, false]).t2.fetched = true :=
  ⟨rfl, rfl⟩

/-- Claim C5 (amended): the check-then-record sequence is not atomic (see the
counterexample); only when the invocations are serialized — each one
completing its check-then-record before the next starts — does exactly one of
the N invocations arriving after the interval has elapsed perform the fetch,
with the remaining ones observing the closed throttle. -/
theorem throttle_serialized_single_fetch (interval last now : Nat) (ts : List Nat)
    (h1 : 1 ≤ interval) (h2 : last + interval ≤ now) (hall : ∀ x ∈ ts, x = now) :
    (throttleSeq interval last (now :: ts)).2 = 1 := by
  have hsf : should_fetch interval last now = true := by
    simp [should_fetch]; omega
  simp only [throttleSeq, hsf, if_true]
  rw [throttleSeq_closed interval now h1 ts hall]

/-- Claim C5 witness: three serialized invocations at time 100 with interval
10 and no previous attempt produce exactly one fetch. -/
theorem throttle_serialized_single_fetch_witness :
    (throttleSeq 10 0 [100, 100, 100]).2 = 1 :=
  throttle_serialized_single_fetch 10 0 100 [100, 100] (by decide) (by decide) (by simp)

/-- Claim C6 (code bug): the relay construction error of the claim never
occurs — the contiguity check is unreachable (last conjunct) — and on the
gapped payload of the specification example the record is processed fully
rather than aborted: the full cycle completes with no exception, both the
gapped NSRB device and the following PCU device are registered, the
production fetch happens, and the aggregate duration is recorded. -/
theorem inventory_cycle_never_aborts :
    (request_envoy_data 10 c6State 100 c6InvRes c6ProdRes 109).2.2.1 = none
    ∧ (request_envoy_data 10 c6State 100 c6InvRes c6ProdRes 109).2.2.2 = true
    ∧ (Registry.findSerial (request_envoy_data 10 c6State 100 c6InvRes c6ProdRes 109).1.registry
        "121707000002").isSome = true
    ∧ (Registry.findSerial (request_envoy_data 10 c6State 100 c6InvRes c6ProdRes 109).1.registry
        "482125000001").isSome = true
    ∧ SinkWrite.dataRequestDuration 9
        ∈ (request_envoy_data 10 c6State 100 c6InvRes c6ProdRes 109).2.1
    ∧ ∀ (reg : Registry) (t : DeviceType) (rec : InventoryRecord),
        (processDeviceRecord reg t rec).2.2 = none :=
  ⟨rfl, rfl, rfl, rfl, by decide, processDeviceRecord_err_none⟩

/-- Claim C7: each serial number maps to exactly one registry entry.  A new
serial is appended once at the end (the registry is append-only and keys are
never removed or reassigned); a present serial leaves the keys unchanged and
only mutates the stored entity in place, preserving every field except the
image-load timestamp; and ingesting the same serial twice starting from an
empty registry yields exactly one entry. -/
theorem registry_append_only (reg : Registry) (t : DeviceType) (rec : InventoryRecord) :
    (Registry.findSerial reg rec.serial_num = none →
      (processDeviceRecord reg t rec).1.map Prod.fst = reg.map Prod.fst ++ [rec.serial_num])
    ∧ (∀ d, Registry.findSerial reg rec.serial_num = some d →
        (processDeviceRecord reg t rec).1 =
          Registry.updateSerial reg rec.serial_num (update_inventory_data d rec).1
        ∧ (update_inventory_data d rec).1.serial_num = d.serial_num
        ∧ (update_inventory_data d rec).1.type = d.type
        ∧ (update_inventory_data d rec).1.part_num = d.part_num
        ∧ (update_inventory_data d rec).1.installed_date = d.installed_date
        ∧ (update_inventory_data d rec).1.line_connected = d.line_connected)
    ∧ (∀ (t2 : DeviceType) (rec2 : InventoryRecord), rec2.serial_num = rec.serial_num →
        (processDeviceRecord (processDeviceRecord [] t rec).1 t2 rec2).1.map Prod.fst
          = [rec.serial_num]) := by
  refine ⟨?_, ?_, ?_⟩
  · intro h
    rw [processDeviceRecord_created reg t rec h, updateSerial_map_fst]
    simp
  · intro d hd
    rw [processDeviceRecord_found reg t rec d hd]
    obtain ⟨h1, h2, h3, h4, h5, _⟩ := update_inventory_data_frame d rec
    exact ⟨rfl, h1, h2, h3, h4, h5⟩
  · intro t2 rec2 h2
    have h0 : Registry.findSerial ([] : Registry) rec.serial_num = none := rfl
    rw [processDeviceRecord_created [] t rec h0]
    have hreg1 :
        Registry.updateSerial ([] ++ [(rec.serial_num, (deviceInit t rec).1)]) rec.serial_num
          (update_inventory_data (deviceInit t rec).1 rec).1
        = [(rec.serial_num, (update_inventory_data (deviceInit t rec).1 rec).1)] := by
      simp [Registry.updateSerial]
    rw [hreg1]
    have hfind : Registry.findSerial
        [(rec.serial_num, (update_inventory_data (deviceInit t rec).1 rec).1)]
        rec2.serial_num
        = some (update_inventory_data (deviceInit t rec).1 rec).1 := by
      simp [Registry.findSerial, List.find?, h2]
    rw [processDeviceRecord_found _ t2 rec2 _ hfind, updateSerial_map_fst]
    simp

/-- Claim C7 witness: ingesting the same inverter record twice starting from
an empty registry leaves exactly one entry, keyed by its serial. -/
theorem registry_append_only_witness :
    (processDeviceRecord (processDeviceRecord [] DeviceType.INVERTER pcuRecord).1
        DeviceType.INVERTER pcuRecord).1.map Prod.fst = ["482125000001"] :=
  (registry_append_only [] DeviceType.INVERTER pcuRecord).2.2 DeviceType.INVERTER pcuRecord rfl

/-- Claim C8: an in-place inventory update republishes the device metadata
info record if and only if the incoming image-load timestamp differs from the
stored one, while the four health flags are overwritten on every update; a
second update with the identical record produces the four health writes and
zero additional metadata writes. -/
theorem metadata_republish_iff (d : DeviceData) (rec : InventoryRecord) :
    (update_inventory_data d rec).2 =
      (if d.image_loaded_date = rec.img_load_date then ([] : List SinkWrite)
       else [SinkWrite.metadataInfo d.serial_num d.part_num d.installed_date
               rec.img_load_date])
      ++ [SinkWrite.health d.serial_num "producing" rec.producing,
          SinkWrite.health d.serial_num "communicating" rec.communicating,
          SinkWrite.health d.serial_num "provisioned" rec.provisioned,
          SinkWrite.health d.serial_num "operating" rec.operating]
    ∧ (update_inventory_data (update_inventory_data d rec).1 rec).2 =
      [SinkWrite.health d.serial_num "producing" rec.producing,
       SinkWrite.health d.serial_num "communicating" rec.communicating,
       SinkWrite.health d.serial_num "provisioned" rec.provisioned,
       SinkWrite.health d.serial_num "operating" rec.operating] := by
  by_cases h : d.image_loaded_date = rec.img_load_date <;>
    simp [update_inventory_data, h]

/-- Claim C9: the line layout of a RelaySwitch device is fixed at
construction: an inventory update never changes `line_connected` (or the
serial, type, part number or installation date); it only carries over the
incoming image-load timestamp (and republishes metadata and health flags as
sink writes). -/
theorem update_preserves_line_layout (d : DeviceData) (rec : InventoryRecord) :
    (update_inventory_data d rec).1.line_connected = d.line_connected
    ∧ (update_inventory_data d rec).1.serial_num = d.serial_num
    ∧ (update_inventory_data d rec).1.type = d.type
    ∧ (update_inventory_data d rec).1.part_num = d.part_num
    ∧ (update_inventory_data d rec).1.installed_date = d.installed_date
    ∧ (update_inventory_data d rec).1.image_loaded_date = rec.img_load_date := by
  obtain ⟨h1, h2, h3, h4, h5, h6⟩ := update_inventory_data_frame d rec
  exact ⟨h5, h1, h2, h3, h4, h6⟩

/-- Totality of the production line loop: it succeeds exactly when every
connected index is within the `lines` list. -/
theorem updateLines_ok_iff (serial direction : String) (ls : List LineInfo) (lc : List Bool) :
    ∀ i : Nat,
      ((updateLines serial direction (some ls) lc i).2 = none ↔
        ∀ j, lc.get? j = some true → i + j < ls.length) := by
  induction lc with
  | nil => intro i; simp [updateLines]
  | cons c rest ih =>
    intro i
    cases c with
    | false =>
      have hred : updateLines serial direction (some ls) (false :: rest) i
          = updateLines serial direction (some ls) rest (i + 1) := by
        simp [updateLines]
      rw [hred, ih (i + 1)]
      constructor
      · intro h j hj
        cases j with
        | zero => simp at hj
        | succ n =>
          have := h n (by simpa using hj)
          omega
      · intro h j hj
        have := h (j + 1) (by simpa using hj)
        omega
    | true =>
      cases hg : ls[i]? with
      | none =>
        have hred : (updateLines serial direction (some ls) (true :: rest) i).2
            = some "IndexError: list index out of range" := by
          simp [updateLines, hg]
        rw [hred]
        constructor
        · intro h; exact absurd h (by simp)
        · intro h
          have h0 := h 0 (by simp)
          have hlen : ls.length ≤ i := List.getElem?_eq_none_iff.mp hg
          exact absurd h0 (by omega)
      | some li =>
        have hi : i < ls.length := by
          by_contra hc
          rw [List.getElem?_eq_none (by omega)] at hg
          cases hg
        have hred : (updateLines serial direction (some ls) (true :: rest) i).2
            = (updateLines serial direction (some ls) rest (i + 1)).2 := by
          simp [updateLines, hg]
        rw [hred, ih (i + 1)]
        constructor
        · intro h j hj
          cases j with
          | zero => omega
          | succ n =>
            have := h n (by simpa using hj)
            omega
        · intro h j hj
          have := h (j + 1) (by simpa using hj)
          omega

/-- On success the production line loop writes exactly the per-line bundles
of the connected indices. -/
theorem updateLines_writes_eq (serial direction : String) (ls : List LineInfo)
    (lc : List Bool) :
    ∀ i : Nat, (updateLines serial direction (some ls) lc i).2 = none →
      (updateLines serial direction (some ls) lc i).1 =
        connectedLineWrites serial direction ls lc i := by
  induction lc with
  | nil => intro i _; simp [updateLines, connectedLineWrites]
  | cons c rest ih =>
    intro i hok
    cases c with
    | false =>
      have hred : updateLines serial direction (some ls) (false :: rest) i
          = updateLines serial direction (some ls) rest (i + 1) := by
        simp [updateLines]
      rw [hred] at hok ⊢
      rw [ih (i + 1) hok]
      simp [connectedLineWrites]
    | true =>
      cases hg : ls[i]? with
      | none =>
        have hred : (updateLines serial direction (some ls) (true :: rest) i).2
            = some "IndexError: list index out of range" := by
          simp [updateLines, hg]
        rw [hred] at hok
        exact absurd hok (by simp)
      | some li =>
        have hred1 : (updateLines serial direction (some ls) (true :: rest) i).1
            = lineWrites serial (i + 1) direction li
              ++ (updateLines serial direction (some ls) rest (i + 1)).1 := by
          simp [updateLines, hg]
        have hred2 : (updateLines serial direction (some ls) (true :: rest) i).2
            = (updateLines serial direction (some ls) rest (i + 1)).2 := by
          simp [updateLines, hg]
        rw [hred2] at hok
        rw [hred1, ih (i + 1) hok]
        simp [connectedLineWrites, List.getD_eq_getElem?_getD, hg]

/-- Claim C10: a RelaySwitch production update indexes the `lines` list at
every connected position, so given an item carrying a `lines` list it is
total (raises no lookup error) exactly when every connected index is within
that list — equivalently, when its length is at least the highest connected
line number — and on success it writes the measurement bundles of exactly the
connected lines, touching nothing for disconnected lines. -/
theorem production_update_total_iff (d : DeviceData) (direction : String)
    (item : ProductionItem) (ls : List LineInfo) (h : item.lines? = some ls) :
    ((update_production_data d direction item).2 = none ↔
      ∀ j, d.line_connected.get? j = some true → j < ls.length)
    ∧ ((update_production_data d direction item).2 = none →
        (update_production_data d direction item).1 =
          connectedLineWrites d.serial_num direction ls d.line_connected 0) := by
  unfold update_production_data
  rw [h]
  constructor
  · simpa using updateLines_ok_iff d.serial_num direction ls d.line_connected 0
  · exact updateLines_writes_eq d.serial_num direction ls d.line_connected 0

/-- Claim C10 witness: for a relay with lines 1 and 3 connected and a
three-element `lines` list, the update succeeds. -/
theorem production_update_total_iff_witness :
    (update_production_data c10Device "production" c10Item).2 = none :=
  (production_update_total_iff c10Device "production" c10Item
      [⟨230, 5, 230, 1150, 1⟩, ⟨0, 0, 230, 0, 0⟩, ⟨120, 2, 231, 462, 1⟩] rfl).1.mpr
    (by
      intro j hj
      rcases j with _ | _ | _ | j
      · decide
      · exact absurd hj (by decide)
      · decide
      · exact absurd hj (by simp [c10Device]))
